import Mathlib

/-!
Shallow embedding of the PythonAIAgent repository
(`app.py`, `llm_tools.py`, `check_api_usage.py`) and verification of the
specification's claims about it.

External effects (the remote model call, the filesystem, the tokenizer)
are passed in as explicit parameters; everything the repository's own
code does is translated directly from the Python source.
-/

/-! ## Character-list substring utilities (Python's `in` on strings) -/

/-- Whether `sub` occurs at the start of `l` (character-list level). -/
def listStarts : List Char → List Char → Bool
  | [], _ => true
  | _ :: _, [] => false
  | a :: as, b :: bs => a == b && listStarts as bs

/-- Whether `sub` occurs anywhere inside `l`: Python's `sub in s` on strings. -/
def hasSub (sub : List Char) : List Char → Bool
  | [] => listStarts sub []
  | b :: bs => listStarts sub (b :: bs) || hasSub sub bs

/-- Python `s.endswith(ext)`. -/
def strEndsWithE (file ext : String) : Bool :=
  ext.data.isSuffixOf file.data

/-! ## Paths: `os.walk` roots modelled as component lists, joined by `/` -/

/-- The directory path string `os.walk` reports for a list of components. -/
def joinPath : List String → String
  | [] => ""
  | [c] => c
  | c :: c2 :: cs => c ++ "/" ++ joinPath (c2 :: cs)

/-- Python `os.path.join(root, file)` for a root given by its components. -/
def osPathJoin (root : List String) (file : String) : String :=
  joinPath (root ++ [file])

/-! ## JSON values and Python truthiness -/

/-- JSON values, as Flask's `request.get_json()` produces them. -/
inductive Json where
  | null
  | bool (b : Bool)
  | num (n : Int)
  | str (s : String)
  | arr (elems : List Json)
  | obj (fields : List (String × Json))

/-- Python truthiness of a JSON value: `None`, `False`, `0`, `""`, `[]`, and
an empty object are falsy, everything else truthy. -/
def pyTruthy : Json → Bool
  | Json.null => false
  | Json.bool b => b
  | Json.num n => !(n == 0)
  | Json.str s => !(s == "")
  | Json.arr xs => !xs.isEmpty
  | Json.obj fs => !fs.isEmpty

/-- Python `d.get(key)` on a JSON object (`none` when the key is absent or the
value is not an object). -/
def jsonGet (j : Json) (key : String) : Option Json :=
  match j with
  | Json.obj fs => List.lookup key fs
  | _ => none

/-- Python `d.get(key, default)`. -/
def jsonGetD (j : Json) (key : String) (dflt : Json) : Json :=
  (jsonGet j key).getD dflt

/-- The keys of a JSON object, in order. -/
def jsonKeys : Json → List String
  | Json.obj fs => fs.map Prod.fst
  | _ => []

/-! ## The HTTP endpoint (`app.py`) -/

/-- Outcome of a Python call: a value, or a raised exception carrying its
message (`str(e)`). -/
inductive ExnOr (α : Type) where
  | ok (a : α)
  | exn (msg : String)

/-- True exactly when the call returned normally. -/
def exnIsOk {α : Type} : ExnOr α → Bool
  | ExnOr.ok _ => true
  | ExnOr.exn _ => false

/-- The pydantic schema `ResearchTheResponse` from `app.py`. -/
structure ResearchTheResponse where
  topic : String
  summary : String
  sources : List String
  tools_used : List String

/-- Pydantic `structured_response.model_dump()`: serialises exactly the declared
fields, in declaration order. -/
def model_dump (r : ResearchTheResponse) : Json :=
  Json.obj
    [ ("topic", Json.str r.topic),
      ("summary", Json.str r.summary),
      ("sources", Json.arr (r.sources.map Json.str)),
      ("tools_used", Json.arr (r.tools_used.map Json.str)) ]

/-- What one request to the Flask handler produces: an HTTP response the
handler itself returns, or an exception that escapes the handler (which
Flask then maps to its default error page, not to the handler's JSON). -/
inductive HandlerOutcome where
  | response (status : Nat) (body : Json)
  | uncaught (msg : String)

/-- The body `jsonify({"Error": "Query Required!!"})`. -/
def queryRequiredBody : Json :=
  Json.obj [("Error", Json.str "Query Required!!")]

/-- The handler `get_query_response` of `POST /api/v1/get_llm_response`.
`body` is the parsed JSON request body; `invoke` stands for
`agent_executor.invoke({"query": query})` and yields the `"output"` entry
of the returned dict (`none` when absent) or raises; `parse` stands for
`llm_parser.parse` on that output string.  The `try` block in the source
begins only after the `invoke` call, so an exception raised by `invoke`
escapes the handler. -/
def get_query_response (body : Json)
    (invoke : Json → ExnOr (Option String))
    (parse : String → ExnOr ResearchTheResponse) : HandlerOutcome :=
  let query := jsonGetD body "query" (Json.str "")
  if !pyTruthy query then
    HandlerOutcome.response 404 queryRequiredBody
  else
    match invoke query with
    | ExnOr.exn m => HandlerOutcome.uncaught m
    | ExnOr.ok rawOut =>
      match parse (rawOut.getD "") with
      | ExnOr.ok r =>
          HandlerOutcome.response 200 (Json.obj [("response", model_dump r)])
      | ExnOr.exn m =>
          HandlerOutcome.response 500 (Json.obj [("Error", Json.str m)])

/-- Whether an outcome is an HTTP 500 response whose JSON body has an
`"Error"` field, as the spec's error contract requires. -/
def is500WithErrorField : HandlerOutcome → Bool
  | HandlerOutcome.response 500 (Json.obj fs) => (List.lookup "Error" fs).isSome
  | _ => false

/-! ## The schema validator (pydantic validation of `ResearchTheResponse`) -/

/-- A JSON value as a Python `str`, when it is one. -/
def asStr : Json → Option String
  | Json.str s => some s
  | _ => none

/-- Each element of a JSON array as a Python `str`; fails if any element
is not a string. -/
def allStrs : List Json → Option (List String)
  | [] => some []
  | j :: js =>
    match asStr j, allStrs js with
    | some s, some rest => some (s :: rest)
    | _, _ => none

/-- A JSON value as a `list[str]`, when it is one. -/
def asStrList : Json → Option (List String)
  | Json.arr xs => allStrs xs
  | _ => none

/-- Pydantic validation of a decoded JSON value against the
`ResearchTheResponse` schema declared in `app.py`: all four declared
fields must be present with the declared types, or validation raises. -/
def parseResearch (j : Json) : ExnOr ResearchTheResponse :=
  match (jsonGet j "topic").bind asStr,
        (jsonGet j "summary").bind asStr,
        (jsonGet j "sources").bind asStrList,
        (jsonGet j "tools_used").bind asStrList with
  | some t, some s, some src, some tu => ExnOr.ok ⟨t, s, src, tu⟩
  | _, _, _, _ => ExnOr.exn "Failed to parse ResearchTheResponse"

/-- The shape the spec demands of a structured answer: the four fields
topic (string), summary (string), sources (list of strings), tools_used
(list of strings). -/
def conformsShape (j : Json) : Bool :=
  ((jsonGet j "topic").bind asStr).isSome &&
  ((jsonGet j "summary").bind asStr).isSome &&
  ((jsonGet j "sources").bind asStrList).isSome &&
  ((jsonGet j "tools_used").bind asStrList).isSome

/-- The parse step `llm_parser.parse` on the raw model text: first extract a JSON value
from the text (`decode`, the external extraction step; `none` means the
text held no valid JSON and the extraction raises), then validate it
against the schema. -/
def pydanticParse (decode : String → Option Json) (s : String) :
    ExnOr ResearchTheResponse :=
  match decode s with
  | none => ExnOr.exn "Invalid json output"
  | some j => parseResearch j

/-! ## The save tool (`llm_tools.py`) -/

/-- The fields of `datetime.now()` that `%Y-%m-%d %H:%M:%S` uses. -/
structure PyDateTime where
  year : Nat
  month : Nat
  day : Nat
  hour : Nat
  minute : Nat
  second : Nat

/-- Decimal rendering of `n` left-padded with zeros to width `w`. -/
def padZeros (w : Nat) (n : Nat) : String :=
  let s := toString n
  String.mk (List.replicate (w - s.length) '0') ++ s

/-- Python `datetime.now().strftime("%Y-%m-%d %H:%M:%S")`. -/
def strftimeYmdHMS (t : PyDateTime) : String :=
  padZeros 4 t.year ++ "-" ++ padZeros 2 t.month ++ "-" ++ padZeros 2 t.day
    ++ " " ++ padZeros 2 t.hour ++ ":" ++ padZeros 2 t.minute
    ++ ":" ++ padZeros 2 t.second

/-- A flat filesystem: filename to current contents; newest write first. -/
def FS : Type := List (String × String)

/-- Python `open(filename, "w")` followed by `f.write(content)`: the file's
contents are replaced wholesale. -/
def fsWrite (fs : FS) (filename content : String) : FS :=
  (filename, content) :: fs

/-- The current contents of a file. -/
def fsRead (fs : FS) (filename : String) : Option String :=
  List.lookup filename fs

/-- The function `save_to_txt_file(data, filename)` from `llm_tools.py`.  `now` stands
for `datetime.now()` and `writeOutcome` for whether the `open`/`write`
raised (carrying `str(e)`) or succeeded.  Returns the tool's string
result together with the filesystem after the call. -/
def save_to_txt_file (data : String) (filename : String) (now : PyDateTime)
    (writeOutcome : Except String Unit) (fs : FS) : String × FS :=
  let timestamp_now := strftimeYmdHMS now
  let formatted_text :=
    "---- Final Output ---- \nTimestamp: " ++ timestamp_now ++ "\n\n"
      ++ data ++ "\n\n"
  match writeOutcome with
  | Except.error e => ("Failed to save data: " ++ e, fs)
  | Except.ok _ =>
      ("Data saved successfully to " ++ filename ++ ".",
       fsWrite fs filename formatted_text)

/-! ## The token-cost script (`check_api_usage.py`) -/

/-- One entry of `MODEL_PRICING`: USD per million tokens. -/
structure Pricing where
  input : ℚ
  output : ℚ
deriving DecidableEq

/-- The table `MODEL_PRICING`: the only model priced is gpt-4o. -/
def MODEL_PRICING : List (String × Pricing) :=
  [("gpt-4o", ⟨5, 20⟩)]

/-- The constant `DEFAULT_MODEL`. -/
def DEFAULT_MODEL : String := "gpt-4o"

/-- The function `calculate_cost(input_tokens, output_tokens, model)`.  An unknown
model name is replaced by `DEFAULT_MODEL` before the table lookup, so the
lookup always succeeds; the `getD` default is unreachable. -/
def calculate_cost (input_tokens output_tokens : ℚ) (model : String) : ℚ :=
  let m := if (List.lookup model MODEL_PRICING).isSome then model
           else DEFAULT_MODEL
  let pricing := (List.lookup m MODEL_PRICING).getD ⟨0, 0⟩
  input_tokens / 1000000 * pricing.input
    + output_tokens / 1000000 * pricing.output

/-- The dict `analyze_file_tokens` returns (the `error` key is present
exactly when reading the file raised). -/
structure FileAnalysis where
  filepath : String
  tokens : Nat
  size_bytes : Nat
  tokens_per_kb : ℚ
  error : Option String

/-- The function `analyze_file_tokens(filepath)`: `readResult` stands for reading the
file (contents and byte size, or the exception message) and `tokenizer`
for `count_tokens`. -/
def analyze_file_tokens (filepath : String)
    (readResult : Except String (String × Nat))
    (tokenizer : String → Nat) : FileAnalysis :=
  match readResult with
  | Except.ok (content, file_size) =>
      let token_count := tokenizer content
      { filepath := filepath, tokens := token_count,
        size_bytes := file_size,
        tokens_per_kb :=
          if file_size > 0 then (token_count : ℚ) / ((file_size : ℚ) / 1024)
          else 0,
        error := none }
  | Except.error e =>
      { filepath := filepath, tokens := 0, size_bytes := 0,
        tokens_per_kb := 0, error := some e }

/-- The directory names `estimate_project_usage` tries to skip. -/
def skipDirs : List String :=
  [".git", "__pycache__", "venv", "env", "node_modules"]

/-- The source's skip test
`any(skip_dir in root for skip_dir in [...])`: a Python substring test
against the root path string, not a path-component comparison. -/
def shouldSkip (root : List String) : Bool :=
  skipDirs.any (fun d => hasSub d.data (joinPath root).data)

/-- The extension test `any(file.endswith(ext) for ext in file_types)`. -/
def matchesType (file : String) (file_types : List String) : Bool :=
  file_types.any (fun ext => strEndsWithE file ext)

/-- The inner `for file in files` loop of `estimate_project_usage` for one
`os.walk` entry: accumulates (total_tokens, total_files, file_results)
over the files, in order. -/
def processFiles (analyze : String → FileAnalysis)
    (file_types : List String) (root : List String) :
    List String → Nat × Nat × List FileAnalysis
  | [] => (0, 0, [])
  | f :: fs =>
    let rest := processFiles analyze file_types root fs
    if shouldSkip root then rest
    else if matchesType f file_types then
      let result := analyze (osPathJoin root f)
      if result.error.isNone then
        (result.tokens + rest.1, 1 + rest.2.1, result :: rest.2.2)
      else rest
    else rest

/-- The outer `for root, _, files in os.walk(directory)` loop: `walk` is
the sequence of `os.walk` entries, each a root (as components) with its
file names. -/
def processWalk (analyze : String → FileAnalysis)
    (file_types : List String) :
    List (List String × List String) → Nat × Nat × List FileAnalysis
  | [] => (0, 0, [])
  | (root, files) :: rest =>
    let r1 := processFiles analyze file_types root files
    let r2 := processWalk analyze file_types rest
    (r1.1 + r2.1, r1.2.1 + r2.2.1, r1.2.2 ++ r2.2.2)

/-- What `estimate_project_usage` returns. -/
structure UsageSummary where
  total_tokens : Nat
  total_files : Nat
  all_input : ℚ
  all_output : ℚ
  mixed : ℚ
  file_results : List FileAnalysis

/-- The function `estimate_project_usage(directory, file_types, model)` with the walk
and the per-file analysis supplied explicitly.  Mirrors the source: walk
and accumulate, stable-sort `file_results` by token count descending,
then price three scenarios with `calculate_cost`. -/
def estimate_project_usage (walk : List (List String × List String))
    (file_types : List String) (model : String)
    (analyze : String → FileAnalysis) : UsageSummary :=
  let acc := processWalk analyze file_types walk
  let total_tokens := acc.1
  let total_files := acc.2.1
  let sorted := acc.2.2.mergeSort (fun a b => b.tokens ≤ a.tokens)
  { total_tokens := total_tokens,
    total_files := total_files,
    all_input := calculate_cost (total_tokens : ℚ) 0 model,
    all_output := calculate_cost 0 (total_tokens : ℚ) model,
    mixed := calculate_cost ((total_tokens : ℚ) / 2) ((total_tokens : ℚ) / 2)
      model,
    file_results := sorted }

/-! ## Helper lemmas -/

theorem listStarts_append_self (sub t : List Char) :
    listStarts sub (sub ++ t) = true := by
  induction sub with
  | nil => rfl
  | cons a as ih => simp [listStarts, ih]

theorem hasSub_of_starts (sub l : List Char) (h : listStarts sub l = true) :
    hasSub sub l = true := by
  cases l with
  | nil => simpa [hasSub] using h
  | cons b bs => simp [hasSub, h]

theorem hasSub_self_append (sub t : List Char) :
    hasSub sub (sub ++ t) = true :=
  hasSub_of_starts _ _ (listStarts_append_self sub t)

theorem hasSub_append_left (sub pre l : List Char) (h : hasSub sub l = true) :
    hasSub sub (pre ++ l) = true := by
  induction pre with
  | nil => simpa using h
  | cons p ps ih => simp [hasSub, ih]

theorem mem_hasSub_joinPath (d : String) (comps : List String)
    (hmem : d ∈ comps) : hasSub d.data (joinPath comps).data = true := by
  induction comps with
  | nil => cases hmem
  | cons c cs ih =>
    cases cs with
    | nil =>
      have hd : d = c := by simpa using hmem
      subst hd
      simpa [joinPath] using hasSub_self_append d.data []
    | cons c2 cs2 =>
      rcases List.mem_cons.mp hmem with h1 | h2
      · subst h1
        have hdata : (joinPath (d :: c2 :: cs2)).data
            = d.data ++ ('/' :: (joinPath (c2 :: cs2)).data) := by
          show (d ++ "/" ++ joinPath (c2 :: cs2)).data
              = d.data ++ ('/' :: (joinPath (c2 :: cs2)).data)
          simp [List.append_assoc]
        rw [hdata]
        exact hasSub_self_append d.data _
      · have hsub := ih h2
        have hdata : (joinPath (c :: c2 :: cs2)).data
            = (c.data ++ ['/']) ++ (joinPath (c2 :: cs2)).data := by
          show (c ++ "/" ++ joinPath (c2 :: cs2)).data
              = (c.data ++ ['/']) ++ (joinPath (c2 :: cs2)).data
          simp
        rw [hdata]
        exact hasSub_append_left _ _ _ hsub

theorem shouldSkip_of_mem (root : List String)
    (h : root.any (fun c => skipDirs.contains c) = true) :
    shouldSkip root = true := by
  rw [List.any_eq_true] at h
  obtain ⟨c, hc, hcs⟩ := h
  rw [shouldSkip, List.any_eq_true]
  refine ⟨c, ?_, mem_hasSub_joinPath c root hc⟩
  simpa using hcs

theorem allStrs_map_str (xs : List String) :
    allStrs (xs.map Json.str) = some xs := by
  induction xs with
  | nil => rfl
  | cons x xs ih => simp [allStrs, ih, asStr]

theorem fmtStructure (ts d : String) :
    "---- Final Output ---- " ++ "\n" ++ "Timestamp: " ++ ts ++ "\n" ++ "\n"
        ++ d ++ "\n" ++ "\n"
      = "---- Final Output ---- \nTimestamp: " ++ ts ++ "\n\n" ++ d ++ "\n\n" := by
  rw [show ("---- Final Output ---- " ++ "\n" ++ "Timestamp: " : String)
        = "---- Final Output ---- \nTimestamp: " from rfl,
      String.append_assoc _ "\n" "\n",
      show (("\n" : String) ++ "\n") = "\n\n" from rfl,
      String.append_assoc _ "\n" "\n",
      show (("\n" : String) ++ "\n") = "\n\n" from rfl]

theorem processFiles_invariants (analyze : String → FileAnalysis)
    (types : List String) (root : List String) (files : List String) :
    (processFiles analyze types root files).2.1
        = (processFiles analyze types root files).2.2.length
    ∧ (processFiles analyze types root files).1
        = ((processFiles analyze types root files).2.2.map
             (fun r => r.tokens)).sum
    ∧ (processFiles analyze types root files).2.2.all
          (fun r => r.error.isNone) = true := by
  induction files with
  | nil => exact ⟨rfl, rfl, rfl⟩
  | cons f fs ih =>
    obtain ⟨ih1, ih2, ih3⟩ := ih
    simp only [processFiles]
    cases hs : shouldSkip root with
    | true =>
      exact ⟨by simpa using ih1, by simpa using ih2, by simpa using ih3⟩
    | false =>
      cases hm : matchesType f types with
      | false =>
        exact ⟨by simpa using ih1, by simpa using ih2, by simpa using ih3⟩
      | true =>
        cases he : (analyze (osPathJoin root f)).error.isNone with
        | false =>
          exact ⟨by simpa using ih1, by simpa using ih2, by simpa using ih3⟩
        | true =>
          refine ⟨?_, ?_, ?_⟩ <;>
            simp [ih1, ih2, ih3, he, Nat.add_comm]

theorem processWalk_invariants (analyze : String → FileAnalysis)
    (types : List String) (walk : List (List String × List String)) :
    (processWalk analyze types walk).2.1
        = (processWalk analyze types walk).2.2.length
    ∧ (processWalk analyze types walk).1
        = ((processWalk analyze types walk).2.2.map (fun r => r.tokens)).sum
    ∧ (processWalk analyze types walk).2.2.all
          (fun r => r.error.isNone) = true := by
  induction walk with
  | nil => exact ⟨rfl, rfl, rfl⟩
  | cons entry rest ih =>
    obtain ⟨ih1, ih2, ih3⟩ := ih
    obtain ⟨root, files⟩ := entry
    obtain ⟨h1, h2, h3⟩ := processFiles_invariants analyze types root files
    refine ⟨?_, ?_, ?_⟩ <;>
      simp [processWalk, h1, h2, h3, ih1, ih2, ih3, List.all_append]

/-! ## Claims -/

/-- C1 (amended): an exception raised while parsing the model's output is
caught and returned as HTTP 500 with body containing an `Error` field
holding the exception message; but an exception raised by the
agent-executor invocation itself is NOT caught by the handler — the
`try` block starts only after `agent_executor.invoke` — so it escapes
the handler instead of producing the JSON 500 body. -/
theorem C1_spec_amended (body : Json) (invoke : Json → ExnOr (Option String))
    (parse : String → ExnOr ResearchTheResponse) (m : String)
    (hq : pyTruthy (jsonGetD body "query" (Json.str "")) = true) :
    (invoke (jsonGetD body "query" (Json.str "")) = ExnOr.exn m →
       get_query_response body invoke parse = HandlerOutcome.uncaught m)
    ∧ (∀ o : Option String,
         invoke (jsonGetD body "query" (Json.str "")) = ExnOr.ok o →
         parse (o.getD "") = ExnOr.exn m →
         get_query_response body invoke parse
           = HandlerOutcome.response 500 (Json.obj [("Error", Json.str m)])) := by
  constructor
  · intro hinv
    simp [get_query_response, hq, hinv]
  · intro o hinv hp
    simp [get_query_response, hq, hinv, hp]

/-- C1 witness: for the concrete body with query `"hi"`, an invocation
that raises escapes the handler, and a parse that raises after a
successful invocation yields the 500 JSON Error response. -/
theorem C1_witness :
    (get_query_response (Json.obj [("query", Json.str "hi")])
        (fun _ => ExnOr.exn "model down") (fun _ => ExnOr.exn "no parse")
      = HandlerOutcome.uncaught "model down")
    ∧ (get_query_response (Json.obj [("query", Json.str "hi")])
        (fun _ => ExnOr.ok (some "raw")) (fun _ => ExnOr.exn "no parse")
      = HandlerOutcome.response 500
          (Json.obj [("Error", Json.str "no parse")])) :=
  ⟨(C1_spec_amended (Json.obj [("query", Json.str "hi")])
      (fun _ => ExnOr.exn "model down") (fun _ => ExnOr.exn "no parse")
      "model down" rfl).1 rfl,
   (C1_spec_amended (Json.obj [("query", Json.str "hi")])
      (fun _ => ExnOr.ok (some "raw")) (fun _ => ExnOr.exn "no parse")
      "no parse" rfl).2 (some "raw") rfl rfl⟩

/-- C1 counterexample: for the body `{"query": "hi"}` with an
agent-executor invocation that raises `"boom"`, the handler does not
return an HTTP 500 JSON `Error` response as the claim states — the
exception escapes the handler uncaught. -/
theorem C1_counterexample :
    get_query_response (Json.obj [("query", Json.str "hi")])
        (fun _ => ExnOr.exn "boom") (fun _ => ExnOr.exn "no parse")
      = HandlerOutcome.uncaught "boom"
    ∧ is500WithErrorField (HandlerOutcome.uncaught "boom") = false :=
  ⟨rfl, rfl⟩

/-- C2: a request body with no `query` key, or whose `query` value is the
empty string, is answered with HTTP 404 and body
`Error: Query Required!!`, and the orchestrator is never consulted: the
result is this 404 response for every possible `invoke` and `parse`
behaviour. -/
theorem C2_holds (body : Json) (invoke : Json → ExnOr (Option String))
    (parse : String → ExnOr ResearchTheResponse)
    (h : jsonGet body "query" = none
         ∨ jsonGet body "query" = some (Json.str "")) :
    get_query_response body invoke parse
      = HandlerOutcome.response 404 queryRequiredBody := by
  rcases h with h | h <;> simp [get_query_response, jsonGetD, h, pyTruthy]

/-- C2 witness: the empty JSON object body (no `query` key) is rejected
with the 404 response even though both externals would raise. -/
theorem C2_witness :
    get_query_response (Json.obj []) (fun _ => ExnOr.exn "down")
        (fun _ => ExnOr.exn "bad")
      = HandlerOutcome.response 404 queryRequiredBody :=
  C2_holds (Json.obj []) (fun _ => ExnOr.exn "down")
    (fun _ => ExnOr.exn "bad") (Or.inl rfl)

/-- C3 (amended): for a file whose extension matches and whose analysis
succeeds, the walk skips it IF AND ONLY IF one of the five names `.git`,
`__pycache__`, `venv`, `env`, `node_modules` occurs as a substring of
its directory path string: when a name occurs, the file contributes
nothing to the accumulators; when none occurs, the file is analyzed and
counted.  In particular every file one of whose path components is
exactly one of the five names is skipped — but the converse of the
original claim fails, since the test is substring containment, not an
exact-component comparison. -/
theorem C3_spec_amended (root : List String) (file : String)
    (types : List String) (analyze : String → FileAnalysis)
    (hm : matchesType file types = true)
    (he : (analyze (osPathJoin root file)).error.isNone = true) :
    (skipDirs.any (fun d => hasSub d.data (joinPath root).data) = true →
       processFiles analyze types root [file] = (0, 0, []))
    ∧ (skipDirs.any (fun d => hasSub d.data (joinPath root).data) = false →
       processFiles analyze types root [file]
         = ((analyze (osPathJoin root file)).tokens, 1,
            [analyze (osPathJoin root file)]))
    ∧ (root.any (fun c => skipDirs.contains c) = true →
       skipDirs.any (fun d => hasSub d.data (joinPath root).data) = true) := by
  refine ⟨?_, ?_, ?_⟩
  · intro h
    simp [processFiles, show shouldSkip root = true from h]
  · intro h
    simp [processFiles, show shouldSkip root = false from h, hm, he]
  · intro h
    exact shouldSkip_of_mem root h

/-- C3 witness: a file under `./venv` is skipped, while the same file
under `./src` (no skip name occurs in that path) is analyzed and
counted. -/
theorem C3_witness :
    processFiles (fun p => ⟨p, 7, 10, 0, none⟩) [".py"] [".", "venv"]
        ["a.py"] = (0, 0, [])
    ∧ processFiles (fun p => ⟨p, 7, 10, 0, none⟩) [".py"] [".", "src"]
        ["a.py"] = (7, 1, [⟨"./src/a.py", 7, 10, 0, none⟩]) :=
  ⟨(C3_spec_amended [".", "venv"] "a.py" [".py"]
      (fun p => ⟨p, 7, 10, 0, none⟩) rfl rfl).1 rfl,
   (C3_spec_amended [".", "src"] "a.py" [".py"]
      (fun p => ⟨p, 7, 10, 0, none⟩) rfl rfl).2.1 rfl⟩

/-- C3 counterexample: the directory `./environment` has no component
named exactly one of the five skip names, yet its files are skipped,
because `"env"` occurs as a substring of the path string — refuting the
claim's "only if" direction. -/
theorem C3_counterexample :
    shouldSkip [".", "environment"] = true
    ∧ ([".", "environment"].any (fun c => skipDirs.contains c)) = false
    ∧ processFiles (fun p => ⟨p, 7, 10, 0, none⟩) [".py"]
        [".", "environment"] ["a.py"] = (0, 0, []) :=
  ⟨rfl, rfl, rfl⟩

/-- C4: each save-tool invocation opens the output file in `"w"` mode, so
after two invocations on the same filename the file holds exactly the
second invocation's formatted text — a header line, a
`Timestamp: YYYY-MM-DD HH:MM:SS` line, a blank line, the payload, and a
trailing blank line — with no trace of the first payload. -/
theorem C4_holds (fs : FS) (data1 data2 filename : String)
    (t1 t2 : PyDateTime) :
    fsRead (save_to_txt_file data2 filename t2 (Except.ok ())
        (save_to_txt_file data1 filename t1 (Except.ok ()) fs).2).2 filename
      = some ("---- Final Output ---- " ++ "\n" ++ "Timestamp: "
          ++ strftimeYmdHMS t2 ++ "\n" ++ "\n" ++ data2 ++ "\n" ++ "\n") := by
  rw [fmtStructure]
  simp [save_to_txt_file, fsWrite, fsRead, List.lookup]

/-- C5: the save adapter is total — it never lets an exception propagate.
When the write raises with message `m` it returns the string
`Failed to save data: ` followed by `m` and leaves the filesystem
untouched; when the write succeeds it returns the success message naming
the file. -/
theorem C5_holds (data filename : String) (now : PyDateTime) (m : String)
    (fs : FS) :
    (save_to_txt_file data filename now (Except.error m) fs).1
        = "Failed to save data: " ++ m
    ∧ (save_to_txt_file data filename now (Except.error m) fs).2 = fs
    ∧ (save_to_txt_file data filename now (Except.ok ()) fs).1
        = "Data saved successfully to " ++ filename ++ "." :=
  ⟨rfl, rfl, rfl⟩

/-- C6: for every walk, the all-input cost estimate equals exactly
total_tokens / 1,000,000 times the gpt-4o input price, the pricing table
fixes gpt-4o at 5 USD input / 20 USD output per million tokens, and a
directory with a single 40-token file reports `total_tokens = 40` with
all-input cost `40 / 1000000 * 5`. -/
theorem C6_holds (walk : List (List String × List String))
    (types : List String) (analyze : String → FileAnalysis) :
    (estimate_project_usage walk types "gpt-4o" analyze).all_input
        = ((estimate_project_usage walk types "gpt-4o" analyze).total_tokens : ℚ)
            / 1000000 * 5
    ∧ List.lookup "gpt-4o" MODEL_PRICING = some ⟨5, 20⟩
    ∧ (estimate_project_usage [(["."], ["a.py"])] [".py"] "gpt-4o"
         (fun p => ⟨p, 40, 100, 0, none⟩)).total_tokens = 40
    ∧ (estimate_project_usage [(["."], ["a.py"])] [".py"] "gpt-4o"
         (fun p => ⟨p, 40, 100, 0, none⟩)).all_input = 40 / 1000000 * 5 := by
  refine ⟨?_, rfl, rfl, ?_⟩
  · simp [estimate_project_usage, calculate_cost, MODEL_PRICING,
      DEFAULT_MODEL, List.lookup]
  · have h : (estimate_project_usage [(["."], ["a.py"])] [".py"] "gpt-4o"
        (fun p => ⟨p, 40, 100, 0, none⟩)).all_input
          = calculate_cost ((40 : Nat) : ℚ) 0 "gpt-4o" := rfl
    rw [h]
    norm_num [calculate_cost, MODEL_PRICING, DEFAULT_MODEL, List.lookup]

/-- C7: for a non-empty query, when the agent invocation succeeds and its
output text parses against the schema, the endpoint answers HTTP 200
whose body's `response` object carries exactly the four fields `topic`,
`summary`, `sources`, `tools_used` (strings resp. string sequences), and
validation succeeds on exactly the JSON values of that shape. -/
theorem C7_holds (body : Json) (invoke : Json → ExnOr (Option String))
    (decode : String → Option Json) (o : Option String)
    (r : ResearchTheResponse)
    (hq : pyTruthy (jsonGetD body "query" (Json.str "")) = true)
    (hinv : invoke (jsonGetD body "query" (Json.str "")) = ExnOr.ok o)
    (hp : pydanticParse decode (o.getD "") = ExnOr.ok r) :
    get_query_response body invoke (pydanticParse decode)
      = HandlerOutcome.response 200 (Json.obj [("response", model_dump r)])
    ∧ jsonKeys (model_dump r) = ["topic", "summary", "sources", "tools_used"]
    ∧ conformsShape (model_dump r) = true
    ∧ (∀ j : Json, exnIsOk (parseResearch j) = conformsShape j) := by
  refine ⟨?_, rfl, ?_, ?_⟩
  · simp [get_query_response, hq, hinv, hp]
  · simp [conformsShape, model_dump, jsonGet, asStr, asStrList,
      allStrs_map_str, List.lookup]
  · intro j
    rcases h1 : (jsonGet j "topic").bind asStr with _ | t <;>
      rcases h2 : (jsonGet j "summary").bind asStr with _ | s <;>
        rcases h3 : (jsonGet j "sources").bind asStrList with _ | src <;>
          rcases h4 : (jsonGet j "tools_used").bind asStrList with _ | tu <;>
            simp [parseResearch, conformsShape, h1, h2, h3, h4, exnIsOk]

/-- C7 witness: a concrete request whose model output decodes to a
conforming object is answered with the 200 response built from exactly
that object. -/
theorem C7_witness :
    get_query_response (Json.obj [("query", Json.str "hi")])
        (fun _ => ExnOr.ok (some "raw"))
        (pydanticParse (fun _ => some (Json.obj
          [("topic", Json.str "T"), ("summary", Json.str "S"),
           ("sources", Json.arr [Json.str "a"]),
           ("tools_used", Json.arr [Json.str "w"])])))
      = HandlerOutcome.response 200
          (Json.obj [("response", model_dump ⟨"T", "S", ["a"], ["w"]⟩)]) :=
  (C7_holds (Json.obj [("query", Json.str "hi")])
    (fun _ => ExnOr.ok (some "raw"))
    (fun _ => some (Json.obj
      [("topic", Json.str "T"), ("summary", Json.str "S"),
       ("sources", Json.arr [Json.str "a"]),
       ("tools_used", Json.arr [Json.str "w"])]))
    (some "raw") ⟨"T", "S", ["a"], ["w"]⟩ rfl rfl rfl).1

/-- C8: `calculate_cost` never fails on an unknown model name — any name
absent from the pricing table is replaced by the default gpt-4o before
the lookup, so its cost equals the gpt-4o cost. -/
theorem C8_holds (i o : ℚ) (m : String)
    (h : List.lookup m MODEL_PRICING = none) :
    calculate_cost i o m = calculate_cost i o "gpt-4o" := by
  simp only [calculate_cost]
  rw [h]
  rfl

/-- C8 witness: the name `gpt-5` is not in the pricing table and is
priced exactly like gpt-4o. -/
theorem C8_witness :
    List.lookup "gpt-5" MODEL_PRICING = none
    ∧ calculate_cost 3 7 "gpt-5" = calculate_cost 3 7 "gpt-4o" :=
  ⟨rfl, C8_holds 3 7 "gpt-5" rfl⟩

/-- C9: files whose analysis carries an error are excluded from all three
accumulators, so in the returned summary `total_files` equals the length
of `file_results`, `total_tokens` equals the sum of the token counts of
exactly the files in `file_results`, and no entry of `file_results`
carries an error. -/
theorem C9_holds (walk : List (List String × List String))
    (types : List String) (model : String)
    (analyze : String → FileAnalysis) :
    (estimate_project_usage walk types model analyze).total_files
        = (estimate_project_usage walk types model analyze).file_results.length
    ∧ (estimate_project_usage walk types model analyze).total_tokens
        = ((estimate_project_usage walk types model analyze).file_results.map
             (fun r => r.tokens)).sum
    ∧ (estimate_project_usage walk types model analyze).file_results.all
          (fun r => r.error.isNone) = true := by
  obtain ⟨h1, h2, h3⟩ := processWalk_invariants analyze types walk
  have hperm : ((processWalk analyze types walk).2.2.mergeSort
        (fun a b => b.tokens ≤ a.tokens)).Perm
      (processWalk analyze types walk).2.2 :=
    List.mergeSort_perm _ _
  refine ⟨?_, ?_, ?_⟩
  · simpa [estimate_project_usage, List.length_mergeSort] using h1
  · show (processWalk analyze types walk).1
        = (((processWalk analyze types walk).2.2.mergeSort
            (fun a b => b.tokens ≤ a.tokens)).map (fun r => r.tokens)).sum
    rw [h2]
    exact ((hperm.map (fun r => r.tokens)).sum_eq).symm
  · show ((processWalk analyze types walk).2.2.mergeSort
        (fun a b => b.tokens ≤ a.tokens)).all (fun r => r.error.isNone) = true
    rw [List.all_eq_true] at h3 ⊢
    intro x hx
    exact h3 x (hperm.subset hx)

/-- C10: the endpoint's missing-query check is a Python truthiness check,
so every falsy JSON value of `query` — null, false, 0, the empty string,
the empty array, the empty object — is treated exactly like an absent
key: all seven request bodies get the HTTP 404 `Query Required!!`
response, whatever the orchestrator would have done. -/
theorem C10_holds (invoke : Json → ExnOr (Option String))
    (parse : String → ExnOr ResearchTheResponse) :
    get_query_response (Json.obj [("query", Json.null)]) invoke parse
        = HandlerOutcome.response 404 queryRequiredBody
    ∧ get_query_response (Json.obj [("query", Json.bool false)]) invoke parse
        = HandlerOutcome.response 404 queryRequiredBody
    ∧ get_query_response (Json.obj [("query", Json.num 0)]) invoke parse
        = HandlerOutcome.response 404 queryRequiredBody
    ∧ get_query_response (Json.obj [("query", Json.str "")]) invoke parse
        = HandlerOutcome.response 404 queryRequiredBody
    ∧ get_query_response (Json.obj [("query", Json.arr [])]) invoke parse
        = HandlerOutcome.response 404 queryRequiredBody
    ∧ get_query_response (Json.obj [("query", Json.obj [])]) invoke parse
        = HandlerOutcome.response 404 queryRequiredBody
    ∧ get_query_response (Json.obj []) invoke parse
        = HandlerOutcome.response 404 queryRequiredBody :=
  ⟨rfl, rfl, rfl, rfl, rfl, rfl, rfl⟩
